import Mathlib

/-!
Shallow embedding of the LangGraph agent scripts
`step5_agentic_workflows.py` (OpenAI variant, under `src/engineers/...`) and
`step5b_agentic_workflows_azure.py` (Azure variant, under `src/getting_started/...`).

The two scripts define byte-identical graph logic (`protect_check_node`,
`invoke_chatbot`, `route_after_protect`, the graph wiring); they differ only in
the LLM configuration (external) and in the literal strings of the sample tools
(the OpenAI variant's file is double-encoded, so its degree signs read "¬∞").
The graph logic is therefore embedded once; the sample tools are embedded per
variant.

External collaborators are modelled as oracles with the contracts the spec
gives in section 6:
  * guardrail service: `String → Except PyFault ProtectResponse`
    (`check(input_text, policy_id) -> {status: triggered|clear, override_text}`);
  * language model: `List Message → AIMsg` (returns one assistant message that
    may carry tool-call requests);
  * the host graph framework (LangGraph): `State` is a `MessagesState`, whose
    `messages` channel is merged with the documented `add_messages` reducer:
    messages in an update that lack an id are assigned fresh unique ids, an
    update message whose id matches an existing one replaces it in place, and
    all other update messages are appended.  Fresh uuid assignment is modelled
    by a `Nat` counter carried in the state.  (`RemoveMessage` handling is
    omitted: no code in this repository constructs one.)
-/

namespace AgenticWorkflows

/-- Message roles of the langchain message classes used by the scripts:
`SystemMessage`, `HumanMessage`, `AIMessage`, `ToolMessage`. -/
inductive Role
  | system
  | human
  | assistant
  | tool
deriving DecidableEq, Repr

/-- One structured tool-call request attached to an assistant message
(name plus arguments; each sample tool takes a single string argument). -/
structure ToolCall where
  callId : String
  name : String
  args : String
deriving DecidableEq, Repr

/-- A langchain message: role, content, tool-call requests (assistant
messages), the tool-call id answered (tool messages), and the optional
message id used by the `add_messages` reducer (uuid modelled as `Nat`). -/
structure Message where
  role : Role
  content : String
  toolCalls : List ToolCall := []
  toolCallId : Option String := none
  msgId : Option Nat := none
deriving DecidableEq, Repr

/-- The graph state, from `class State(MessagesState): protect_triggered: bool`.
`nextId` is the fresh-id counter backing the reducer's uuid assignment. -/
structure AgentState where
  messages : List Message
  protectTriggered : Bool
  nextId : Nat
deriving DecidableEq, Repr

/-- A partial state update as returned by a node (a Python dict holding a
subset of the state's keys). -/
structure StateUpdate where
  messages : Option (List Message) := none
  protectTriggered : Option Bool := none
deriving DecidableEq, Repr

/-- Modelled from the host framework (LangGraph `add_messages`): give every
message that has no id a fresh id, drawn from the counter. -/
def assignIds : List Message → Nat → List Message × Nat
  | [], n => ([], n)
  | m :: ms, n =>
    match m.msgId with
    | some _ =>
      let r := assignIds ms n
      (m :: r.1, r.2)
    | none =>
      let r := assignIds ms (n + 1)
      ({ m with msgId := some n } :: r.1, r.2)

/-- Modelled from the host framework (LangGraph `add_messages`): merge one
update message into the accumulated list — replace in place on an id match,
append otherwise. -/
def mergeMessage (left : List Message) (m : Message) : List Message :=
  if left.any (fun l => l.msgId == m.msgId) then
    left.map (fun l => if l.msgId == m.msgId then m else l)
  else
    left ++ [m]

/-- Modelled from the host framework (LangGraph `add_messages` reducer of
`MessagesState.messages`): assign ids on both sides, then merge each update
message in order. -/
def addMessages (left right : List Message) (nextId : Nat) : List Message × Nat :=
  let l := assignIds left nextId
  let r := assignIds right l.2
  (r.1.foldl mergeMessage l.1, r.2)

/-- Modelled from the host framework: merging a node's partial update into the
accumulated state — the `messages` channel through `add_messages`, the
`protect_triggered` channel by last-value-wins. -/
def applyUpdate (s : AgentState) (u : StateUpdate) : AgentState :=
  match u.messages with
  | none =>
    { s with protectTriggered := u.protectTriggered.getD s.protectTriggered }
  | some ms =>
    let r := addMessages s.messages ms s.nextId
    { messages := r.1
      protectTriggered := u.protectTriggered.getD s.protectTriggered
      nextId := r.2 }

/-- Status values of the guardrail service's response, from the spec's
contract `check(input_text, policy_id) -> {status: triggered|clear, ...}`;
the scripts compare the parsed status against `ExecutionStatus.triggered`. -/
inductive ExecutionStatus
  | triggered
  | clear
deriving DecidableEq, Repr

/-- The parsed guardrail response (`Response.model_validate_json`): status
plus the override text shown when triggered. -/
structure ProtectResponse where
  status : ExecutionStatus
  text : String
deriving DecidableEq, Repr

/-- A Python exception escaping an external call (carried message). -/
structure PyFault where
  message : String
deriving DecidableEq, Repr

/-- The assistant message returned by `llm.invoke` (a langchain `AIMessage`):
content plus zero or more structured tool-call requests.  Its id is assigned
by the reducer on merge. -/
structure AIMsg where
  content : String
  toolCalls : List ToolCall := []
deriving DecidableEq, Repr

/-- Wrap the LLM's reply as a conversation message. -/
def AIMsg.toMessage (a : AIMsg) : Message :=
  { role := Role.assistant, content := a.content, toolCalls := a.toolCalls }

/-- The scripts' scan for the latest user message:
`for msg in reversed(state["messages"]): if isinstance(msg, HumanMessage): ...`. -/
def latestHumanContent (msgs : List Message) : Option String :=
  (msgs.reverse.find? (fun m => m.role == Role.human)).map (fun m => m.content)

/-- The node `protect_check_node` of both scripts.  Returns the node's partial
state update together with a flag recording whether the external guardrail
service was invoked; a fault raised by the service call (or response parsing)
propagates, since the scripts wrap the call in no try/except. -/
def protect_check_node (protectEnabled : Bool)
    (service : String → Except PyFault ProtectResponse)
    (state : AgentState) : Except PyFault (StateUpdate × Bool) :=
  if !protectEnabled then
    -- "IMPORTANT: don't touch messages; just signal no protect"
    Except.ok ({ protectTriggered := some false }, false)
  else
    match latestHumanContent state.messages with
    | none =>
      -- `if not latest_message` with latest_message = None
      Except.ok ({ protectTriggered := some false }, false)
    | some c =>
      if c = "" then
        -- `if not latest_message` with an empty (falsy) content string
        Except.ok ({ protectTriggered := some false }, false)
      else
        match service c with
        | Except.error f => Except.error f
        | Except.ok resp =>
          if resp.status = ExecutionStatus.triggered then
            Except.ok
              ({ messages := some [{ role := Role.assistant, content := resp.text }]
                 protectTriggered := some true }, true)
          else
            Except.ok ({ protectTriggered := some false }, true)

/-- The local message list `invoke_chatbot` sends to the LLM: the system
prompt is prepended when it is non-empty (truthy) and no system message is
already present (`if system_prompt and not any(isinstance(m, SystemMessage) ...)`). -/
def chatbotMessages (systemPrompt : String) (messages : List Message) : List Message :=
  if systemPrompt != "" && !(messages.any (fun m => m.role == Role.system)) then
    { role := Role.system, content := systemPrompt } :: messages
  else
    messages

/-- The node `invoke_chatbot` of both scripts: call the LLM on the (locally
system-prompted) history and return only the new AI message, for the reducer
to append. -/
def invoke_chatbot (systemPrompt : String) (llm : List Message → AIMsg)
    (state : AgentState) : StateUpdate :=
  let messages := chatbotMessages systemPrompt state.messages
  let aiMessage := llm messages
  { messages := some [aiMessage.toMessage] }

/-- Modelled from the host framework (LangGraph prebuilt `tools_condition`):
route to the tools node exactly when the last message is an assistant message
carrying at least one tool call. -/
def tools_condition (state : AgentState) : Bool :=
  match state.messages.getLast? with
  | some m => m.role == Role.assistant && !m.toolCalls.isEmpty
  | none => false

/-- Modelled from the host framework (LangGraph prebuilt `ToolNode`) and the
spec's `tool_dispatch`: one tool-result message per tool-call request of the
last message, order preserved, matching call id; an unknown tool name yields
an error-text result instead of aborting. -/
def tool_node (tools : List (String × (String → String)))
    (state : AgentState) : StateUpdate :=
  match state.messages.getLast? with
  | none => { messages := some [] }
  | some last =>
    { messages := some (last.toolCalls.map (fun tc =>
        match tools.lookup tc.name with
        | some f =>
          { role := Role.tool, content := f tc.args, toolCallId := some tc.callId }
        | none =>
          { role := Role.tool
            content := "Error: " ++ tc.name ++ " is not a valid tool."
            toolCallId := some tc.callId })) }

/-- The state holding the empty channels before the input is merged. -/
def initState : AgentState :=
  { messages := [], protectTriggered := false, nextId := 0 }

/-- The state after `graph.invoke(initial_state, ...)` merges the caller's
`initial_state` (`{"messages": [HumanMessage(content=query)], "protect_triggered": False}`)
into the empty channels. -/
def initialTurnState (input : List Message) : AgentState :=
  applyUpdate initState { messages := some input, protectTriggered := some false }

/-- The `chatbot ⇄ tools` loop wired by
`add_conditional_edges("chatbot", tools_condition)` and
`add_edge("tools", "chatbot")`, run with explicit fuel (the scripts' loop is
bounded only by the model's decision to stop requesting tools). -/
def runChatLoop (systemPrompt : String) (tools : List (String × (String → String)))
    (llm : List Message → AIMsg) : Nat → AgentState → Option AgentState
  | 0, _ => none
  | Nat.succ fuel, s =>
    let s1 := applyUpdate s (invoke_chatbot systemPrompt llm s)
    if tools_condition s1 then
      runChatLoop systemPrompt tools llm fuel (applyUpdate s1 (tool_node tools s1))
    else
      some s1

/-- One full turn through the compiled graph:
`START → protect_check → (END | chatbot (⇄ tools) → END)`, following
`route_after_protect` (`END` when `protect_triggered`, else `"chatbot"`).
Returns the final state paired with whether the guardrail service was invoked,
`Except.error` when an uncaught exception aborts the turn, and `Option.none`
inside `ok` when the fuel runs out. -/
def runTurn (protectEnabled : Bool) (systemPrompt : String)
    (tools : List (String × (String → String)))
    (service : String → Except PyFault ProtectResponse)
    (llm : List Message → AIMsg) (fuel : Nat)
    (input : List Message) : Except PyFault (Option (AgentState × Bool)) :=
  let s0 := initialTurnState input
  match protect_check_node protectEnabled service s0 with
  | Except.error f => Except.error f
  | Except.ok (u, called) =>
    let s1 := applyUpdate s0 u
    if s1.protectTriggered then
      Except.ok (some (s1, called))
    else
      match runChatLoop systemPrompt tools llm fuel s1 with
      | none => Except.ok none
      | some s => Except.ok (some (s, called))

/-- States whose messages all carry an id below the fresh-id counter (every
state reachable from a merged input satisfies this). -/
def WF (s : AgentState) : Bool :=
  s.messages.all (fun m =>
    match m.msgId with
    | some i => decide (i < s.nextId)
    | none => false)

end AgenticWorkflows

namespace AgenticWorkflows

/-- Python's `str.lower()` on the ASCII inputs the scripts use, written as a
character map so that it evaluates by reduction. -/
def pyLower (s : String) : String :=
  String.mk (s.data.map Char.toLower)

end AgenticWorkflows

namespace Step5

open AgenticWorkflows

/-- The sample tool `get_weather` of the OpenAI variant
(`src/engineers/.../step5_agentic_workflows.py`): its literal weather strings
are double-encoded in the source file, so the degree signs read "¬∞". -/
def get_weather (location : String) : String :=
  let weather_data : List (String × String) :=
    [("san francisco", "Sunny, 72¬∞F"),
     ("new york", "Cloudy, 65¬∞F"),
     ("london", "Rainy, 55¬∞F"),
     ("tokyo", "Clear, 75¬∞F")]
  let location_lower := pyLower location
  match weather_data.lookup location_lower with
  | some w => w
  | none => "Weather for " ++ location ++ ": Partly cloudy, 68¬∞F"

end Step5

namespace Step5b

open AgenticWorkflows

/-- The sample tool `get_weather` of the Azure variant
(`src/getting_started/.../step5b_agentic_workflows_azure.py`), whose weather
strings carry proper degree signs. -/
def get_weather (location : String) : String :=
  let weather_data : List (String × String) :=
    [("san francisco", "Sunny, 72°F"),
     ("new york", "Cloudy, 65°F"),
     ("london", "Rainy, 55°F"),
     ("tokyo", "Clear, 75°F")]
  let location_lower := pyLower location
  match weather_data.lookup location_lower with
  | some w => w
  | none => "Weather for " ++ location ++ ": Partly cloudy, 68°F"

end Step5b

namespace AgenticWorkflows

/-- The sample tool `calculate` of both variants, over an oracle for Python's
`eval`: `Except.ok` carries `str(result)` for a successful evaluation,
`Except.error` carries `str(e)` for a raised exception, which the tool's
`try/except` turns into an error string. -/
def calculate (evalFn : String → Except String String) (expression : String) : String :=
  match evalFn expression with
  | Except.ok result => "Result: " ++ result
  | Except.error e => "Error calculating: " ++ e

/-- A concrete LLM oracle that answers without requesting tools. -/
def llmPlain : List Message → AIMsg := fun _ => { content := "hello there" }

/-- A concrete guardrail oracle that always reports clear. -/
def svcClear : String → Except PyFault ProtectResponse :=
  fun _ => Except.ok { status := ExecutionStatus.clear, text := "" }

/-- A concrete guardrail oracle that always triggers with override "blocked". -/
def svcBlock : String → Except PyFault ProtectResponse :=
  fun _ => Except.ok { status := ExecutionStatus.triggered, text := "blocked" }

/-- A concrete guardrail oracle that always triggers with a polite override. -/
def svcBlockPolite : String → Except PyFault ProtectResponse :=
  fun _ =>
    Except.ok { status := ExecutionStatus.triggered, text := "Sorry, I cannot help with that." }

/-- A concrete guardrail oracle whose call raises a network fault. -/
def svcDown : String → Except PyFault ProtectResponse :=
  fun _ => Except.error { message := "network error" }

/-- A human input message as the scripts build it: `HumanMessage(content=query)`,
no id yet. -/
def humanIn (s : String) : Message :=
  { role := Role.human, content := s }

theorem assignIds_allSome (l : List Message) (n : Nat)
    (h : ∀ m ∈ l, m.msgId.isSome) : assignIds l n = (l, n) := by
  induction l with
  | nil => rfl
  | cons m ms ih =>
    have hm := h m (List.mem_cons_self m ms)
    have hms : ∀ x ∈ ms, x.msgId.isSome := fun x hx => h x (List.mem_cons_of_mem m hx)
    cases hid : m.msgId with
    | none => rw [hid] at hm; simp at hm
    | some i => simp [assignIds, hid, ih hms]

theorem mergeMessage_of_not_mem (left : List Message) (m : Message)
    (h : left.any (fun l => l.msgId == m.msgId) = false) :
    mergeMessage left m = left ++ [m] := by
  simp [mergeMessage, h]

theorem WF_isSome (s : AgentState) (h : WF s = true) :
    ∀ m ∈ s.messages, m.msgId.isSome := by
  intro m hm
  have hp := List.all_eq_true.mp h m hm
  cases hid : m.msgId with
  | none => rw [hid] at hp; simp at hp
  | some i => simp

theorem WF_lt (s : AgentState) (h : WF s = true) :
    ∀ m ∈ s.messages, ∀ i, m.msgId = some i → i < s.nextId := by
  intro m hm i hid
  have hp := List.all_eq_true.mp h m hm
  rw [hid] at hp
  exact of_decide_eq_true hp

theorem WF_no_fresh (s : AgentState) (h : WF s = true) :
    s.messages.any (fun l => l.msgId == some s.nextId) = false := by
  cases hany : s.messages.any (fun l => l.msgId == some s.nextId) with
  | false => rfl
  | true =>
    exfalso
    obtain ⟨m, hm, hp⟩ := List.any_eq_true.mp hany
    have hid : m.msgId = some s.nextId := by
      exact eq_of_beq hp
    exact lt_irrefl s.nextId (WF_lt s h m hm s.nextId hid)

theorem applyUpdate_flag_none (s : AgentState) (u : StateUpdate)
    (h : u.protectTriggered = none) :
    (applyUpdate s u).protectTriggered = s.protectTriggered := by
  cases hm : u.messages <;> simp [applyUpdate, hm, h]

theorem invoke_chatbot_flag (sp : String) (llm : List Message → AIMsg)
    (s : AgentState) : (invoke_chatbot sp llm s).protectTriggered = none := rfl

theorem tool_node_flag (tools : List (String × (String → String)))
    (s : AgentState) : (tool_node tools s).protectTriggered = none := by
  cases h : s.messages.getLast? <;> simp [tool_node, h]

theorem runChatLoop_flag (sp : String) (tools : List (String × (String → String)))
    (llm : List Message → AIMsg) :
    ∀ (fuel : Nat) (s s' : AgentState), runChatLoop sp tools llm fuel s = some s' →
      s'.protectTriggered = s.protectTriggered := by
  intro fuel
  induction fuel with
  | zero => intro s s' h; simp [runChatLoop] at h
  | succ n ih =>
    intro s s' h
    rw [runChatLoop] at h
    by_cases hc : tools_condition (applyUpdate s (invoke_chatbot sp llm s)) = true
    · rw [if_pos hc] at h
      have h1 := ih _ _ h
      rw [h1, applyUpdate_flag_none _ _ (tool_node_flag tools _),
        applyUpdate_flag_none _ _ (invoke_chatbot_flag sp llm s)]
    · rw [if_neg hc] at h
      have h1 : applyUpdate s (invoke_chatbot sp llm s) = s' := by
        exact Option.some.inj h
      rw [← h1, applyUpdate_flag_none _ _ (invoke_chatbot_flag sp llm s)]

/-- A one-user-message state as the guardrail-check node receives it. -/
def stateC4 : AgentState :=
  { messages := [{ role := Role.human, content := "what is 2+2", msgId := some 0 }]
    protectTriggered := false
    nextId := 1 }

/-- A one-user-message state for the chat-completion witness. -/
def stateC6 : AgentState :=
  { messages := [{ role := Role.human, content := "hi", msgId := some 0 }]
    protectTriggered := false
    nextId := 1 }

/-- A conversation without a system message. -/
def msgsNoSys : List Message :=
  [{ role := Role.human, content := "hi", msgId := some 0 }]

/-- A conversation that already holds a system message. -/
def msgsWithSys : List Message :=
  [{ role := Role.system, content := "q", msgId := some 0 },
   { role := Role.human, content := "hi", msgId := some 1 }]

/-- A state whose latest (only) user message has empty content. -/
def stateC10a : AgentState :=
  { messages := [{ role := Role.human, content := "", msgId := some 0 }]
    protectTriggered := false
    nextId := 1 }

/-- A state holding no user message at all. -/
def stateC10b : AgentState :=
  { messages := [{ role := Role.assistant, content := "x", msgId := some 0 }]
    protectTriggered := false
    nextId := 1 }

/-- The final state of the guardrail-disabled witness turn. -/
def finalC2 : AgentState :=
  { messages :=
      [{ role := Role.human, content := "hi", msgId := some 0 },
       { role := Role.assistant, content := "hello there", msgId := some 1 }]
    protectTriggered := false
    nextId := 2 }

/-- C1: spec and the node's own comment call for replacing the history with the
single override message when Protect triggers, but `State` is a
`MessagesState`, whose `add_messages` reducer appends the id-less override
message: on input `[user: "my SSN is 123-45-6789"]` with the service
triggering with override "blocked", the final conversation holds TWO messages
(the original user message followed by the override), not exactly one;
`protect_triggered` is true. -/
theorem protect_triggered_appends_instead_of_replacing :
    runTurn true "sys" [] svcBlock llmPlain 5 [humanIn "my SSN is 123-45-6789"]
      = Except.ok (some
          ({ messages :=
               [{ role := Role.human, content := "my SSN is 123-45-6789", msgId := some 0 },
                { role := Role.assistant, content := "blocked", msgId := some 1 }]
             protectTriggered := true
             nextId := 2 }, true)) := by
  rfl

/-- C2: when guardrail screening is disabled (no Protect stage id), every
completed turn ends with `protect_triggered = false` and the external
guardrail service is never invoked (the second component of the result
records whether the service was called). -/
theorem protect_disabled_no_service_call (sp : String)
    (tools : List (String × (String → String)))
    (service : String → Except PyFault ProtectResponse)
    (llm : List Message → AIMsg) (fuel : Nat) (input : List Message)
    (s : AgentState) (called : Bool)
    (h : runTurn false sp tools service llm fuel input = Except.ok (some (s, called))) :
    s.protectTriggered = false ∧ called = false := by
  have hdef : runTurn false sp tools service llm fuel input
      = (match runChatLoop sp tools llm fuel
            (applyUpdate (initialTurnState input) { protectTriggered := some false }) with
         | none => Except.ok none
         | some s2 => Except.ok (some (s2, false))) := rfl
  rw [hdef] at h
  cases hl : runChatLoop sp tools llm fuel
      (applyUpdate (initialTurnState input) { protectTriggered := some false }) with
  | none =>
    rw [hl] at h
    simp at h
  | some s2 =>
    rw [hl] at h
    simp only [Except.ok.injEq, Option.some.injEq, Prod.mk.injEq] at h
    obtain ⟨hs, hc⟩ := h
    subst hs
    refine ⟨?_, hc.symm⟩
    have hflag := runChatLoop_flag sp tools llm fuel _ _ hl
    rw [hflag]
    rfl

/-- Witness for C2: a concrete two-message turn run with screening disabled. -/
theorem protect_disabled_no_service_call_witness :
    finalC2.protectTriggered = false ∧ false = false :=
  protect_disabled_no_service_call "sys" [] svcClear llmPlain 3 [humanIn "hi"]
    finalC2 false (by rfl)

/-- C3 counterexample: a guardrail-service fault is NOT treated as
"not triggered" — the scripts wrap the Protect call in no try/except, so the
turn aborts with the fault instead of continuing to `chat_completion`. -/
theorem protect_fault_aborts_concrete :
    runTurn true "sys" [] svcDown llmPlain 5 [humanIn "hello"]
      = Except.error { message := "network error" } := by
  rfl

/-- C3 amended: a fault raised while calling the external guardrail service
propagates out of the guardrail-check node, aborting the turn with that fault
reported to the caller; execution does not continue to `chat_completion`. -/
theorem protect_service_fault_propagates (sp : String)
    (tools : List (String × (String → String)))
    (service : String → Except PyFault ProtectResponse)
    (llm : List Message → AIMsg) (fuel : Nat) (input : List Message)
    (c : String) (f : PyFault)
    (h1 : latestHumanContent (initialTurnState input).messages = some c)
    (h2 : c ≠ "") (h3 : service c = Except.error f) :
    runTurn true sp tools service llm fuel input = Except.error f := by
  have hnode : protect_check_node true service (initialTurnState input)
      = Except.error f := by
    simp [protect_check_node, h1, h2, h3]
  simp only [runTurn, hnode]

/-- Witness for the amended C3 at a concrete faulting service. -/
theorem protect_service_fault_propagates_witness :
    runTurn true "sys" [] svcDown llmPlain 7 [humanIn "hi there"]
      = Except.error { message := "network error" } :=
  protect_service_fault_propagates "sys" [] svcDown llmPlain 7 [humanIn "hi there"]
    "hi there" { message := "network error" } (by rfl) (by decide) (by rfl)

/-- C4: when the guardrail reports clear, the node's update leaves the
`messages` channel untouched, so the state entering `chat_completion` carries
a message sequence identical to the input conversation. -/
theorem protect_clear_messages_unchanged
    (service : String → Except PyFault ProtectResponse) (s : AgentState) (c t : String)
    (h1 : latestHumanContent s.messages = some c) (h2 : c ≠ "")
    (h3 : service c = Except.ok { status := ExecutionStatus.clear, text := t }) :
    protect_check_node true service s
        = Except.ok ({ protectTriggered := some false }, true)
      ∧ (applyUpdate s { protectTriggered := some false }).messages = s.messages := by
  constructor
  · simp [protect_check_node, h1, h2, h3]
  · rfl

/-- Witness for C4: a concrete clear verdict on a one-message conversation. -/
theorem protect_clear_messages_unchanged_witness :
    protect_check_node true svcClear stateC4
        = Except.ok ({ protectTriggered := some false }, true)
      ∧ (applyUpdate stateC4 { protectTriggered := some false }).messages
          = stateC4.messages :=
  protect_clear_messages_unchanged svcClear stateC4 "what is 2+2" ""
    (by rfl) (by decide) (by rfl)

/-- C5: `invoke_chatbot` never inserts a second system message into a
conversation that already holds one, and for a configured (non-empty) system
prompt it inserts the prompt exactly once, at the head, into a conversation
holding none — on the local list passed to the model. -/
theorem system_prompt_inserted_exactly_once (sp : String) (msgs : List Message) :
    (msgs.any (fun m => m.role == Role.system) = true →
        chatbotMessages sp msgs = msgs)
      ∧ (msgs.any (fun m => m.role == Role.system) = false → sp ≠ "" →
          chatbotMessages sp msgs = { role := Role.system, content := sp } :: msgs
            ∧ (chatbotMessages sp msgs).countP (fun m => m.role == Role.system) = 1) := by
  constructor
  · intro h
    simp [chatbotMessages, h]
  · intro h hsp
    have hcons : chatbotMessages sp msgs
        = { role := Role.system, content := sp } :: msgs := by
      simp [chatbotMessages, h, hsp]
    refine ⟨hcons, ?_⟩
    rw [List.any_eq_false] at h
    rw [hcons, List.countP_cons_of_pos _ _ (by rfl), List.countP_eq_zero.mpr h]

/-- Witness for C5: insertion into a system-less conversation, no insertion
into one already holding a system message. -/
theorem system_prompt_inserted_exactly_once_witness :
    chatbotMessages "be nice" msgsNoSys
        = { role := Role.system, content := "be nice" } :: msgsNoSys
      ∧ chatbotMessages "be nice" msgsWithSys = msgsWithSys :=
  ⟨((system_prompt_inserted_exactly_once "be nice" msgsNoSys).2 (by rfl) (by decide)).1,
   (system_prompt_inserted_exactly_once "be nice" msgsWithSys).1 (by rfl)⟩

/-- C6: merging `invoke_chatbot`'s update appends exactly one assistant
message — the LLM's reply, given the next fresh id — to the conversation,
leaving every existing message and the `protect_triggered` flag unchanged. -/
theorem chatbot_appends_exactly_one_message (sp : String)
    (llm : List Message → AIMsg) (s : AgentState) (h : WF s = true) :
    (applyUpdate s (invoke_chatbot sp llm s)).messages
        = s.messages ++
          [{ role := Role.assistant
             content := (llm (chatbotMessages sp s.messages)).content
             toolCalls := (llm (chatbotMessages sp s.messages)).toolCalls
             msgId := some s.nextId }]
      ∧ (applyUpdate s (invoke_chatbot sp llm s)).protectTriggered
          = s.protectTriggered := by
  refine ⟨?_, applyUpdate_flag_none s _ (invoke_chatbot_flag sp llm s)⟩
  have hA : assignIds s.messages s.nextId = (s.messages, s.nextId) :=
    assignIds_allSome _ _ (WF_isSome s h)
  have hB : s.messages.any (fun l => l.msgId == some s.nextId) = false := WF_no_fresh s h
  show (applyUpdate s
      { messages := some [(llm (chatbotMessages sp s.messages)).toMessage] }).messages = _
  simp only [applyUpdate, addMessages, hA, assignIds, AIMsg.toMessage, List.foldl]
  rw [mergeMessage_of_not_mem]
  · simpa using hB

/-- Witness for C6: one concrete chat-completion merge. -/
theorem chatbot_appends_exactly_one_message_witness :
    (applyUpdate stateC6 (invoke_chatbot "sys" llmPlain stateC6)).messages
        = stateC6.messages ++
          [{ role := Role.assistant
             content := (llmPlain (chatbotMessages "sys" stateC6.messages)).content
             toolCalls := (llmPlain (chatbotMessages "sys" stateC6.messages)).toolCalls
             msgId := some stateC6.nextId }]
      ∧ (applyUpdate stateC6 (invoke_chatbot "sys" llmPlain stateC6)).protectTriggered
          = stateC6.protectTriggered :=
  chatbot_appends_exactly_one_message "sys" llmPlain stateC6 (by rfl)

/-- C7: for every input expression and every behaviour of the evaluation
oracle, the `calculate` tool returns a text result — either "Result: ..." or
"Error calculating: ..." — and (being a total function into `String`) never
propagates a fault, so tool dispatch is not aborted by it. -/
theorem calculate_always_returns_text (evalFn : String → Except String String)
    (expression : String) :
    (∃ r, calculate evalFn expression = "Result: " ++ r)
      ∨ (∃ e, calculate evalFn expression = "Error calculating: " ++ e) := by
  rcases h : evalFn expression with e | r
  · exact Or.inr ⟨e, by simp [calculate, h]⟩
  · exact Or.inl ⟨r, by simp [calculate, h]⟩

/-- C8: spec's invariant allows one exception — the guardrail-triggered turn
replacing the whole list with one rejection message — but the code appends
there too: on a three-message conversation whose latest user message triggers
Protect, the final list is the full input history plus the appended override
(monotone growth, no replacement). -/
theorem turn_messages_appended_not_replaced :
    runTurn true "sys" [] svcBlockPolite llmPlain 5
        [humanIn "hi", { role := Role.assistant, content := "hello" },
         humanIn "my SSN is 123-45-6789"]
      = Except.ok (some
          ({ messages :=
               [{ role := Role.human, content := "hi", msgId := some 0 },
                { role := Role.assistant, content := "hello", msgId := some 1 },
                { role := Role.human, content := "my SSN is 123-45-6789", msgId := some 2 },
                { role := Role.assistant, content := "Sorry, I cannot help with that.",
                  msgId := some 3 }]
             protectTriggered := true
             nextId := 4 }, true)) := by
  rfl

/-- C9: `get_weather("Tokyo")` returns "Clear, 75°F" only in the Azure
variant; the OpenAI variant's source file is double-encoded, so its tool
returns the mojibake string "Clear, 75¬∞F" instead. -/
theorem get_weather_tokyo_results :
    Step5.get_weather "Tokyo" = "Clear, 75¬∞F"
      ∧ Step5b.get_weather "Tokyo" = "Clear, 75°F"
      ∧ Step5.get_weather "Tokyo" ≠ "Clear, 75°F" := by
  refine ⟨by rfl, by rfl, by decide⟩

/-- C10: a present-but-empty (falsy) latest user message makes the
guardrail-check node return `protect_triggered = false` without invoking the
service — exactly the behaviour it shows when no user message exists. -/
theorem empty_user_content_skips_guardrail
    (service : String → Except PyFault ProtectResponse) (s1 s2 : AgentState)
    (h1 : latestHumanContent s1.messages = some "")
    (h2 : latestHumanContent s2.messages = none) :
    protect_check_node true service s1
        = Except.ok ({ protectTriggered := some false }, false)
      ∧ protect_check_node true service s1 = protect_check_node true service s2 := by
  have e1 : protect_check_node true service s1
      = Except.ok ({ protectTriggered := some false }, false) := by
    simp [protect_check_node, h1]
  have e2 : protect_check_node true service s2
      = Except.ok ({ protectTriggered := some false }, false) := by
    simp [protect_check_node, h2]
  exact ⟨e1, e1.trans e2.symm⟩

/-- Witness for C10: an empty user message next to a user-message-free state,
checked against an always-triggering service that is nevertheless not
consulted. -/
theorem empty_user_content_skips_guardrail_witness :
    protect_check_node true svcBlock stateC10a
        = Except.ok ({ protectTriggered := some false }, false)
      ∧ protect_check_node true svcBlock stateC10a
          = protect_check_node true svcBlock stateC10b :=
  empty_user_content_skips_guardrail svcBlock stateC10a stateC10b (by rfl) (by rfl)

end AgenticWorkflows
